import Mathlib

/-!
Verification development for the VisionAnnotate oriented-bounding-box labelling
tool (`yolo_label_tool.py`, `labelling_tool.py`).

The Python source is shallowly embedded below.  Machine floats are modelled as
rationals (`ℚ`); the pointer-event handlers become pure functions on an
explicit `ToolState` record mirroring the fields of `YOLOLabelTool`; a raised
Python exception (IndexError on an out-of-range list assignment or indexing)
is modelled by returning `none`.  Trigonometric values are passed explicitly:
wherever the source computes `cos(radians(angle))` and `sin(radians(angle))`,
the model takes the pair from an oracle `trig : ℚ → ℚ × ℚ` (for the angle-0
inputs used in concrete runs the exact pair `(1, 0)` is supplied), and the
`degrees(atan2 dy dx)` of the rotate gesture is an oracle `atan2d`.
-/

set_option maxRecDepth 8000

namespace VisionAnnotate

/-- One label dictionary, as built by `load_yolo_labels` / `handle_mouse_release`:
keys `class_id, x_center, y_center, width, height, angle`. -/
structure Label where
  class_id : ℤ
  x_center : ℚ
  y_center : ℚ
  width : ℚ
  height : ℚ
  angle : ℚ
deriving DecidableEq, Repr

/-- The clamping pattern used throughout the source: `max lo (min hi v)`
(e.g. `max(0.0, min(1.0, x_center))`). -/
def clamp (lo hi v : ℚ) : ℚ := max lo (min hi v)

/-- The range invariant claimed for stored labels: `x_center, y_center ∈ [0,1]`
and `width, height ∈ [0.001, 1]`. -/
def labelInRange (l : Label) : Prop :=
  0 ≤ l.x_center ∧ l.x_center ≤ 1 ∧ 0 ≤ l.y_center ∧ l.y_center ≤ 1 ∧
  1/1000 ≤ l.width ∧ l.width ≤ 1 ∧ 1/1000 ≤ l.height ∧ l.height ≤ 1

instance : DecidablePred labelInRange := fun l => by
  unfold labelInRange; infer_instance

/-- Every label of the document satisfies the range invariant. -/
def docInvariant (ls : List Label) : Prop := ∀ l ∈ ls, labelInRange l

instance : DecidablePred docInvariant := fun ls => by
  unfold docInvariant; exact List.decidableBAll _ _

/-! ## Label-file tokens and parsing (`load_yolo_labels`, lines 751–787)

A line of a label file is `line.strip().split()`, a list of whitespace-free
tokens.  A token is abstracted by its lexical class: an integer literal
(accepted by Python `int` and `float`), a non-integer numeric literal
(accepted by `float` only), or junk (rejected by both, raising `ValueError`). -/

inductive Tok where
  /-- an integer literal such as `0` or `-3` -/
  | int (n : ℤ)
  /-- a non-integer numeric literal such as `0.25`; `q` is its value -/
  | float (q : ℚ)
  /-- a non-numeric token -/
  | junk
deriving DecidableEq, Repr

/-- Python `int(tok)`: succeeds only on an integer literal. -/
def pyInt : Tok → Option ℤ
  | .int n => some n
  | .float _ => none
  | .junk => none

/-- Python `float(tok)`: succeeds on any numeric literal. -/
def pyFloat : Tok → Option ℚ
  | .int n => some (n : ℚ)
  | .float q => some q
  | .junk => none

/-- `angle = float(parts[5]) if len(parts) > 5 else 0.0`, applied to the tokens
after the first five. -/
def parseAngle : List Tok → Option ℚ
  | [] => some 0
  | a :: _ => pyFloat a

/-- One iteration of the load loop (lines 764–783): lines with fewer than 5
tokens are ignored; a `ValueError` from `int`/`float` on any parsed field
skips the line (`continue`).  `none` is a skipped line. -/
def parseLine : List Tok → Option Label
  | c :: x :: y :: w :: h :: rest =>
    (pyInt c).bind fun class_id =>
    (pyFloat x).bind fun x_center =>
    (pyFloat y).bind fun y_center =>
    (pyFloat w).bind fun width =>
    (pyFloat h).bind fun height =>
    (parseAngle rest).map fun angle => ⟨class_id, x_center, y_center, width, height, angle⟩
  | _ => none

/-- The full parsing loop: every line is tried, skipped lines contribute
nothing, parsing never aborts. -/
def parseLabels (lines : List (List Tok)) : List Label :=
  lines.filterMap parseLine

/-- The possible states of the label file for the current image, as seen by
`load_yolo_labels`: the path does not exist, it exists but `open` raises
(caught by the `except` at line 784), or it opens and yields token lines. -/
inductive LabelFile where
  | absent
  | unreadable
  | readable (lines : List (List Tok))
deriving DecidableEq

/-- `load_yolo_labels` (lines 751–787).  `prior` is `self.labels` before the
call and `haveImage` is `self.image_files and self.current_index >= 0`.  The
method starts with `self.labels = []`, so the prior labels are discarded on
every path; an open failure is caught and only a status message is shown. -/
def load_yolo_labels (prior : List Label) (haveImage : Bool) (file : LabelFile) :
    List Label :=
  match haveImage, file with
  | false, _ => []
  | true, .absent => []
  | true, .unreadable => []
  | true, .readable lines => parseLabels lines

/-! ## Saving (`save_labels`, lines 789–810) -/

/-- The value written by Python `f"{v:.6f}"`: `v` rounded to 6 decimal
places.  (Ties are modelled with `round`; the claims only require a rounding
function consistent between saving and the round-trip statement.) -/
def round6 (q : ℚ) : ℚ := ((round (q * 1000000) : ℤ) : ℚ) / 1000000

/-- A label with every float field rounded to 6 decimal places. -/
def round6Label (l : Label) : Label :=
  ⟨l.class_id, round6 l.x_center, round6 l.y_center, round6 l.width,
   round6 l.height, round6 l.angle⟩

/-- The token line written for one label (lines 801–802):
`class_id x_center y_center width height angle`, floats at 6 decimal digits. -/
def saveLine (l : Label) : List Tok :=
  [.int l.class_id, .float (round6 l.x_center), .float (round6 l.y_center),
   .float (round6 l.width), .float (round6 l.height), .float (round6 l.angle)]

/-- `save_labels`: one line per label, in order, overwriting the file. -/
def saveLabels (ls : List Label) : List (List Tok) :=
  ls.map saveLine

/-! ## Geometry -/

/-- `RotatedYOLOLabelTool.calculate_rotated_corners` (labelling_tool.py,
lines 166–186): the four rectangle corners, rotated about the center.  The
source computes `cos_a, sin_a = math.cos(angle), math.sin(angle)`; here the
cosine and sine are the parameters `cos_a` and `sin_a`, so the definition is
polymorphic over the ambient field and usable both at exact rational inputs
and at `Real.cos θ / Real.sin θ`. -/
def calculate_rotated_corners {α : Type} [Field α] (cx cy w h cos_a sin_a : α) :
    List (α × α) :=
  let half_w := w / 2
  let half_h := h / 2
  ([(-half_w, -half_h), (half_w, -half_h), (half_w, half_h), (-half_w, half_h)]).map
    (fun d => (cx + (d.1 * cos_a - d.2 * sin_a), cy + (d.1 * sin_a + d.2 * cos_a)))

/-- Centroid of a list of points: arithmetic mean of the coordinates. -/
def centroid {α : Type} [Field α] (ps : List (α × α)) : α × α :=
  ((ps.map Prod.fst).sum / (ps.length : α), (ps.map Prod.snd).sum / (ps.length : α))

/-- `YOLOLabelTool.calculate_handles` (yolo_label_tool.py, lines 384–423):
the 4 rotated corners followed by the 4 rotated edge midpoints of a label, in
image-pixel space.  The source computes
`cos_a = np.cos(np.radians(label.angle))` and similarly `sin_a`; those two
values are the parameters `cos_a`, `sin_a` (exact for the angles appearing in
concrete runs, e.g. `(1, 0)` at angle 0). -/
def calculate_handles (cos_a sin_a W H : ℚ) (label : Label) : List (ℚ × ℚ) :=
  let x_center := label.x_center * W
  let y_center := label.y_center * H
  let width := label.width * W
  let height := label.height * H
  ([(-(width/2), -(height/2)), (width/2, -(height/2)),
    (width/2, height/2), (-(width/2), height/2)] ++
   [((0 : ℚ), -(height/2)), (width/2, (0 : ℚ)), ((0 : ℚ), height/2), (-(width/2), (0 : ℚ))]).map
    (fun d => (d.1 * cos_a - d.2 * sin_a + x_center, d.1 * sin_a + d.2 * cos_a + y_center))

/-- The edit-mode handle hit-test of `handle_mouse_press` (lines 339–345):
the first handle index `i` with `abs(x - hx) < 10 and abs(y - hy) < 10`. -/
def editHandleHit (cos_a sin_a W H : ℚ) (label : Label) (p : ℚ × ℚ) : Option ℕ :=
  (calculate_handles cos_a sin_a W H label).findIdx?
    (fun q => decide (|p.1 - q.1| < 10) && decide (|p.2 - q.2| < 10))

/-- Modelled from the spec (§4.1 `nearest_handle_or_point`): does some handle
or the center lie within Euclidean distance 10 of `point`?  Stated via squared
distance to stay inside `ℚ` (`dist < 10 ↔ dist² < 100` for the nonnegative
distance).  This is the claim-side definition C4 compares the code against. -/
def spec_euclidean_hit (cos_a sin_a W H : ℚ) (label : Label) (p : ℚ × ℚ) : Bool :=
  (calculate_handles cos_a sin_a W H label ++
      [(label.x_center * W, label.y_center * H)]).any
    (fun q => decide ((p.1 - q.1)^2 + (p.2 - q.2)^2 < 100))

/-- `QRectF(x, y, w, h).contains(px, py)` (Qt semantics): inside or on the
edge; a null-width or null-height rectangle contains nothing; a negative
width or height spans backwards. -/
def qrectf_contains (x y w h px py : ℚ) : Bool :=
  let l := if w < 0 then x + w else x
  let r := if w < 0 then x else x + w
  let t := if h < 0 then y + h else y
  let b := if h < 0 then y else y + h
  decide (l ≠ r) && decide (t ≠ b) &&
  decide (l ≤ px) && decide (px ≤ r) && decide (t ≤ py) && decide (py ≤ b)

/-- Parsing a saved line recovers the label with its float fields rounded to
6 decimal places (the `class_id` integer is exact). -/
theorem parseLine_saveLine (l : Label) : parseLine (saveLine l) = some (round6Label l) := rfl

example : parseLabels [[Tok.int 1, Tok.junk, Tok.float (1/2), Tok.float (1/4),
    Tok.float (1/4)], [Tok.int 0, Tok.float (1/2), Tok.float (1/2),
    Tok.float (1/4), Tok.float (1/4)]] = [⟨0, 1/2, 1/2, 1/4, 1/4, 0⟩] := by
  with_unfolding_all decide

example : calculate_handles 1 0 100 100 ⟨0, 1/2, 1/2, 2/5, 1/5, 0⟩ =
    [(30, 40), (70, 40), (70, 60), (30, 60), (50, 40), (70, 50), (50, 60), (30, 50)] := by
  with_unfolding_all decide

example : editHandleHit 1 0 100 100 ⟨0, 1/2, 1/2, 2/5, 1/5, 0⟩ (50, 40) = some 4 := by
  with_unfolding_all decide


/-! ## The interaction state (`YOLOLabelTool.__init__` and the mouse handlers)

A raised Python exception (IndexError from an out-of-range list index or list
assignment) is modelled by an `Option` result, `none` meaning the handler
raised instead of returning. -/

/-- A `QRectF` value: origin and (possibly zero) extents. -/
structure Rect where
  x : ℚ
  y : ℚ
  w : ℚ
  h : ℚ
deriving DecidableEq, Repr

/-- `QRectF(p1, p2).normalized()`: the axis-aligned rectangle spanning the two
points with nonnegative extents. -/
def rectFromPoints (p1 p2 : ℚ × ℚ) : Rect :=
  ⟨min p1.1 p2.1, min p1.2 p2.2, |p2.1 - p1.1|, |p2.2 - p1.2|⟩

/-- Python `min` over a nonempty list (the source only applies it to the four
corner coordinates). -/
def pymin : List ℚ → ℚ
  | [] => 0
  | a :: rest => rest.foldl min a

/-- Python `max` over a nonempty list. -/
def pymax : List ℚ → ℚ
  | [] => 0
  | a :: rest => rest.foldl max a

/-- Python `int(q)`: truncation toward zero. -/
def pytrunc (q : ℚ) : ℤ := if 0 ≤ q then ⌊q⌋ else -⌊-q⌋

/-- The mutable fields of `YOLOLabelTool` that the pointer handlers read or
write (plus the class table, image dimensions and the two relevant widget
values).  `selected_label = -1` encodes no selection, as in the source. -/
structure ToolState where
  image_width : ℚ
  image_height : ℚ
  labels : List Label
  classes : List String
  drawing_mode : Bool
  edit_mode : Bool
  orientation_mode : Bool
  drawing : Bool
  start_point : ℚ × ℚ
  temp_rect : Option Rect
  selected_label : ℤ
  dragging : Bool
  resizing : Bool
  rotating : Bool
  resize_handle : ℤ
  drag_start : ℚ × ℚ
  drag_offset : ℚ × ℚ
  original_label : Label
  angle_slider : ℤ
  class_combo : ℤ
deriving DecidableEq, Repr

/-- The state after `__init__` and `load_config` with the default single
class, for an image of the given dimensions and an empty document: Draw mode,
no active gesture, no selection, angle slider at 0, class combo at index 0.
(`original_label` is not assigned by `__init__`; the dummy value is only ever
read after a press overwrites it.) -/
def initState (W H : ℚ) : ToolState :=
  { image_width := W, image_height := H, labels := [], classes := ["object"],
    drawing_mode := true, edit_mode := false, orientation_mode := false,
    drawing := false, start_point := (0, 0), temp_rect := none,
    selected_label := -1, dragging := false, resizing := false, rotating := false,
    resize_handle := -1, drag_start := (0, 0), drag_offset := (0, 0),
    original_label := ⟨0, 0, 0, 0, 0, 0⟩, angle_slider := 0, class_combo := 0 }

/-- First label whose unrotated bounding rectangle contains `p`
(lines 362–374): scan in order. -/
def findContaining (s : ToolState) (p : ℚ × ℚ) : Option ℕ :=
  s.labels.findIdx? (fun label =>
    let x_center := label.x_center * s.image_width
    let y_center := label.y_center * s.image_height
    let width := label.width * s.image_width
    let height := label.height * s.image_height
    qrectf_contains (x_center - width/2) (y_center - height/2) width height p.1 p.2)

/-- `handle_mouse_press` (lines 321–382), for a left-button press with an
image loaded; `p` is the scene position.  `trig angle` supplies
`(cos(radians(angle)), sin(radians(angle)))` for `calculate_handles`. -/
def handle_mouse_press (trig : ℚ → ℚ × ℚ) (s : ToolState) (p : ℚ × ℚ) :
    Option ToolState :=
  if s.drawing_mode then
    some { s with drawing := true, start_point := p,
                  temp_rect := some ⟨p.1, p.2, 0, 0⟩ }
  else if s.edit_mode && decide (0 ≤ s.selected_label) then
    match s.labels.get? s.selected_label.toNat with
    | none => none
    | some label =>
      let cs := trig label.angle
      match editHandleHit cs.1 cs.2 s.image_width s.image_height label p with
      | some i =>
        some { s with resizing := true, resize_handle := (i : ℤ), drag_start := p,
                      original_label := label }
      | none =>
        let x_center := label.x_center * s.image_width
        let y_center := label.y_center * s.image_height
        let width := label.width * s.image_width
        let height := label.height * s.image_height
        if qrectf_contains (x_center - width/2) (y_center - height/2)
            width height p.1 p.2 then
          some { s with dragging := true, drag_start := p,
                        drag_offset := (p.1 - x_center, p.2 - y_center),
                        original_label := label }
        else
          match findContaining s p with
          | some i => some { s with selected_label := (i : ℤ) }
          | none => some s
  else if s.orientation_mode && decide (0 ≤ s.selected_label) then
    some { s with rotating := true }
  else
    some s

/-- What the unreachable edge-handle branch of the resize logic
(lines 484–492) would compute for the resized dimension: a scale factor from
the pointer's signed offset from the center along the relevant axis, applied
as `dim * (1 + scale)`.  It is dead code: execution raises IndexError at
line 466 before reaching it whenever `resize_handle` is 4–7. -/
def edge_resize_dead_code (W H : ℚ) (original : Label) (handle : ℤ) (p : ℚ × ℚ) : ℚ :=
  let edge_idx := handle - 4
  if edge_idx = 0 ∨ edge_idx = 2 then
    let scale := (p.2 - original.y_center * H) / (H * original.height / 2)
    original.height * (1 + scale)
  else
    let scale := (p.1 - original.x_center * W) / (W * original.width / 2)
    original.width * (1 + scale)

/-- `handle_mouse_move` (lines 425–548).  The cursor-shape updates of the
hover path mutate no document state and are omitted; every branch that only
touches the cursor returns the state unchanged.  In the resizing branch the
source executes `modified_corners[self.resize_handle] = (x, y)` on the
4-element list `orig_corners`: for `resize_handle` 4–7 this raises
IndexError (`none`), for negative values Python indexes from the end. -/
def handle_mouse_move (trig : ℚ → ℚ × ℚ) (atan2d : ℚ → ℚ → ℚ) (s : ToolState)
    (p : ℚ × ℚ) : Option ToolState :=
  if s.drawing && s.drawing_mode then
    some { s with temp_rect := some (rectFromPoints s.start_point p) }
  else if s.dragging && s.edit_mode && decide (0 ≤ s.selected_label) then
    match s.labels.get? s.selected_label.toNat with
    | none => none
    | some label =>
      let new_x_center := clamp 0 1 ((p.1 - s.drag_offset.1) / s.image_width)
      let new_y_center := clamp 0 1 ((p.2 - s.drag_offset.2) / s.image_height)
      let moved := { label with x_center := new_x_center, y_center := new_y_center }
      some { s with labels := s.labels.set s.selected_label.toNat moved }
  else if s.resizing && s.edit_mode && decide (0 ≤ s.selected_label) then
    match s.labels.get? s.selected_label.toNat with
    | none => none
    | some label =>
      let cs := trig s.original_label.angle
      let orig_corners := (calculate_handles cs.1 cs.2 s.image_width s.image_height
        s.original_label).take 4
      if decide (4 ≤ s.resize_handle) || decide (s.resize_handle < -4) then
        none
      else
        let idx := (if s.resize_handle < 0 then s.resize_handle + 4
                    else s.resize_handle).toNat
        let modified_corners := orig_corners.set idx p
        let xs := modified_corners.map Prod.fst
        let ys := modified_corners.map Prod.snd
        let new_x_min := pymin xs / s.image_width
        let new_y_min := pymin ys / s.image_height
        let new_x_max := pymax xs / s.image_width
        let new_y_max := pymax ys / s.image_height
        let resized := { label with
          x_center := (new_x_min + new_x_max) / 2,
          y_center := (new_y_min + new_y_max) / 2,
          width := new_x_max - new_x_min,
          height := new_y_max - new_y_min }
        let clamped := { resized with
          x_center := clamp 0 1 resized.x_center,
          y_center := clamp 0 1 resized.y_center,
          width := clamp (1/1000) 1 resized.width,
          height := clamp (1/1000) 1 resized.height }
        some { s with labels := s.labels.set s.selected_label.toNat clamped }
  else if s.rotating && s.orientation_mode && decide (0 ≤ s.selected_label) then
    match s.labels.get? s.selected_label.toNat with
    | none => none
    | some label =>
      let center_x := label.x_center * s.image_width
      let center_y := label.y_center * s.image_height
      let angle := atan2d (p.2 - center_y) (p.1 - center_x)
      let turned := { label with angle := angle }
      some { s with labels := s.labels.set s.selected_label.toNat turned,
                    angle_slider := pytrunc angle }
  else
    some s

/-- `handle_mouse_release` (lines 550–594), for a left-button release.  A
`QRectF` object is always truthy in PyQt5, so the commit test
`self.drawing and self.temp_rect and self.drawing_mode` only requires
`temp_rect` not to be `None`.  The release position is unused by the
source. -/
def handle_mouse_release (s : ToolState) (_p : ℚ × ℚ) : ToolState :=
  match s.temp_rect with
  | some rect =>
    if s.drawing && s.drawing_mode then
      let x_center := (rect.x + rect.w / 2) / s.image_width
      let y_center := (rect.y + rect.h / 2) / s.image_height
      let width := rect.w / s.image_width
      let height := rect.h / s.image_height
      let class_id := if s.class_combo < 0 then 0 else s.class_combo
      let committed : Label := ⟨class_id, clamp 0 1 x_center, clamp 0 1 y_center,
        clamp (1/1000) 1 width, clamp (1/1000) 1 height, (s.angle_slider : ℚ)⟩
      { s with labels := s.labels ++ [committed],
               drawing := false, temp_rect := none }
    else
      { s with dragging := false, resizing := false, rotating := false,
               resize_handle := -1 }
  | none =>
    { s with dragging := false, resizing := false, rotating := false,
             resize_handle := -1 }

/-- A pointer event in image-pixel coordinates. -/
inductive PtrEvent where
  | press (p : ℚ × ℚ)
  | move (p : ℚ × ℚ)
  | up (p : ℚ × ℚ)
deriving DecidableEq, Repr

/-- Dispatch one pointer event to its handler, as `eventFilter` does. -/
def step (trig : ℚ → ℚ × ℚ) (atan2d : ℚ → ℚ → ℚ) (s : ToolState) :
    PtrEvent → Option ToolState
  | .press p => handle_mouse_press trig s p
  | .move p => handle_mouse_move trig atan2d s p
  | .up p => some (handle_mouse_release s p)

/-- Run a sequence of pointer events; `none` as soon as a handler raises. -/
def runEvents (trig : ℚ → ℚ × ℚ) (atan2d : ℚ → ℚ → ℚ) (s : ToolState)
    (evs : List PtrEvent) : Option ToolState :=
  evs.foldlM (step trig atan2d) s

/-- `update_label` (lines 1020–1052) after a successful parse of the four
text fields: clamp and store the edited values together with the current
class-combo index and slider angle.  (On an out-of-range stale selection the
source would raise; the selection is always in range when nonnegative in the
UI, and the model keeps the state unchanged there.) -/
def update_label (s : ToolState) (x_center y_center width height : ℚ) : ToolState :=
  if 0 ≤ s.selected_label then
    match s.labels.get? s.selected_label.toNat with
    | none => s
    | some label =>
      let edited := { label with class_id := s.class_combo,
                                 x_center := clamp 0 1 x_center,
                                 y_center := clamp 0 1 y_center,
                                 width := clamp (1/1000) 1 width,
                                 height := clamp (1/1000) 1 height,
                                 angle := (s.angle_slider : ℚ) }
      { s with labels := s.labels.set s.selected_label.toNat edited }
  else s

/-- `remove_class` (lines 950–961): with a nonnegative selected row, the
source first formats the confirmation text with `self.classes[current_row]`
(IndexError when out of range, modelled `none`), then pops the class on
confirmation.  Labels are never touched. -/
def remove_class (s : ToolState) (current_row : ℤ) (confirmed : Bool) :
    Option ToolState :=
  if 0 ≤ current_row then
    if current_row.toNat < s.classes.length then
      if confirmed then
        some { s with classes := s.classes.eraseIdx current_row.toNat }
      else some s
    else none
  else some s

/-- Edit mode with one selected label of angle 0 on a 100×100 image:
center (50,50) px, 40×20 px box, top-edge midpoint handle at (50,40). -/
def editStateC2 : ToolState := { initState 100 100 with
  labels := [⟨0, 1/2, 1/2, 2/5, 1/5, 0⟩],
  drawing_mode := false,
  edit_mode := true,
  selected_label := 0 }

/-- A state with a two-entry class table and one label of each class. -/
def twoClassState : ToolState := { initState 100 100 with
  classes := ["person", "car"],
  labels := [⟨0, 1/2, 1/2, 1/2, 1/2, 0⟩, ⟨1, 1/4, 1/4, 1/4, 1/4, 0⟩] }

/-! ## Helper lemmas -/

theorem clamp_mem (lo hi v : ℚ) (h : lo ≤ hi) : lo ≤ clamp lo hi v ∧ clamp lo hi v ≤ hi :=
  ⟨le_max_left _ _, max_le h (min_le_left _ _)⟩

theorem labelInRange_clamped (cid : ℤ) (x y w h a : ℚ) :
    labelInRange ⟨cid, clamp 0 1 x, clamp 0 1 y, clamp (1/1000) 1 w, clamp (1/1000) 1 h, a⟩ := by
  have h01 : (0 : ℚ) ≤ 1 := by norm_num
  have hwh : (1/1000 : ℚ) ≤ 1 := by norm_num
  exact ⟨(clamp_mem _ _ x h01).1, (clamp_mem _ _ x h01).2,
    (clamp_mem _ _ y h01).1, (clamp_mem _ _ y h01).2,
    (clamp_mem _ _ w hwh).1, (clamp_mem _ _ w hwh).2,
    (clamp_mem _ _ h hwh).1, (clamp_mem _ _ h hwh).2⟩

theorem docInvariant_set {ls : List Label} {i : ℕ} {v : Label}
    (hinv : docInvariant ls) (hv : labelInRange v) : docInvariant (ls.set i v) := by
  intro l hl
  rcases List.mem_or_eq_of_mem_set hl with hmem | rfl
  · exact hinv l hmem
  · exact hv

theorem docInvariant_append_one {ls : List Label} {v : Label}
    (hinv : docInvariant ls) (hv : labelInRange v) : docInvariant (ls ++ [v]) := by
  intro l hl
  rcases List.mem_append.mp hl with hmem | hmem
  · exact hinv l hmem
  · rw [List.mem_singleton] at hmem
    exact hmem ▸ hv

theorem labelInRange_of_get? {ls : List Label} {i : ℕ} {l : Label}
    (hinv : docInvariant ls) (h : ls.get? i = some l) : labelInRange l :=
  hinv l (List.get?_mem h)

/-! ## C3 — load on an unopenable existing path -/

/-- C3 counterexample: `load_yolo_labels` discards the prior labels even when
the open fails, so the document is not left at its pre-call value as the
claim states: a document holding one label ends up empty. -/
theorem C3_counterexample_prior_discarded :
    load_yolo_labels [⟨0, 1/2, 1/2, 1/2, 1/2, 0⟩] true .unreadable = [] ∧
    ([] : List Label) ≠ [⟨0, 1/2, 1/2, 1/2, 1/2, 0⟩] := by
  with_unfolding_all decide

/-- C3 (amended): when the label-file path exists but cannot be opened, the
exception is caught inside `load_yolo_labels` (surfaced only as a status
message, not propagated), the parse is aborted, and the document's label
sequence is left empty — the method clears `self.labels` before opening, so
the pre-call labels are discarded rather than preserved.  In fact the result
of `load_yolo_labels` never depends on the prior document on any path. -/
theorem C3_load_failure_aborts_with_empty_document :
    (∀ prior : List Label, load_yolo_labels prior true .unreadable = []) ∧
    (∀ (prior prior2 : List Label) (haveImage : Bool) (file : LabelFile),
      load_yolo_labels prior haveImage file = load_yolo_labels prior2 haveImage file) :=
  ⟨fun _ => rfl, fun _ _ _ _ => rfl⟩

/-! ## C5 — save/load round trip -/

/-- C5: saving a document whose labels satisfy the range invariant and
loading it back yields the same number of labels in the same order, with
equal `class_id` and every float field equal to the original rounded to six
decimal places (`round6Label`). -/
theorem C5_save_load_roundtrip (ls : List Label) (hinv : docInvariant ls) :
    parseLabels (saveLabels ls) = ls.map round6Label := by
  clear hinv
  unfold parseLabels saveLabels
  induction ls with
  | nil => rfl
  | cons l t ih => simp only [List.map_cons, List.filterMap_cons, parseLine_saveLine, ih]

/-- C5 witness: the round trip at a concrete one-label document satisfying
the invariant. -/
theorem C5_witness :
    docInvariant [⟨0, 1/2, 1/2, 1/2, 1/2, 0⟩] ∧
    parseLabels (saveLabels [⟨0, 1/2, 1/2, 1/2, 1/2, 0⟩]) =
      [(⟨0, 1/2, 1/2, 1/2, 1/2, 0⟩ : Label)].map round6Label :=
  ⟨by with_unfolding_all decide,
   C5_save_load_roundtrip [⟨0, 1/2, 1/2, 1/2, 1/2, 0⟩] (by with_unfolding_all decide)⟩

/-! ## C6 — malformed lines are skipped, load never aborts -/

/-- C6: a line with fewer than 5 tokens is skipped; a line with a junk token
among its parsed fields (the first five, and the sixth when present) is
skipped; and a file with one junk-bearing line followed by one well-formed
line parses to exactly the one good label — the bad line does not abort the
rest of the file, and no error is raised (`parseLabels` is total). -/
theorem C6_malformed_lines_skipped :
    (∀ toks : List Tok, toks.length < 5 → parseLine toks = none) ∧
    (∀ toks : List Tok, Tok.junk ∈ toks.take 6 → parseLine toks = none) ∧
    parseLabels [[Tok.int 1, Tok.junk, Tok.float (1/2), Tok.float (1/4), Tok.float (1/4)],
      [Tok.int 0, Tok.float (1/2), Tok.float (1/2), Tok.float (1/4), Tok.float (1/4)]]
      = [⟨0, 1/2, 1/2, 1/4, 1/4, 0⟩] := by
  refine ⟨?_, ?_, by with_unfolding_all decide⟩
  · intro toks h
    match toks with
    | [] => rfl
    | [_] => rfl
    | [_, _] => rfl
    | [_, _, _] => rfl
    | [_, _, _, _] => rfl
    | _ :: _ :: _ :: _ :: _ :: _ =>
      simp only [List.length_cons] at h
      omega
  · intro toks hmem
    match toks with
    | [] => rfl
    | [_] => rfl
    | [_, _] => rfl
    | [_, _, _] => rfl
    | [_, _, _, _] => rfl
    | c :: x :: y :: w :: h :: rest =>
      simp only [List.take_succ_cons, List.mem_cons] at hmem
      rcases hmem with rfl | rfl | rfl | rfl | rfl | hm
      · rfl
      · cases hc : pyInt c <;> simp [parseLine, hc, pyFloat]
      · cases hc : pyInt c <;> cases hx : pyFloat x <;>
          simp [parseLine, hc, hx, pyFloat]
      · cases hc : pyInt c <;> cases hx : pyFloat x <;> cases hy : pyFloat y <;>
          simp [parseLine, hc, hx, hy, pyFloat]
      · cases hc : pyInt c <;> cases hx : pyFloat x <;> cases hy : pyFloat y <;>
          cases hw : pyFloat w <;> simp [parseLine, hc, hx, hy, hw, pyFloat]
      · match rest, hm with
        | r0 :: rtail, hm =>
          have : r0 = Tok.junk := by
            simp only [List.take_succ_cons, List.take_zero, List.mem_singleton] at hm
            exact hm.symm
          subst this
          cases hc : pyInt c <;> cases hx : pyFloat x <;> cases hy : pyFloat y <;>
            cases hw : pyFloat w <;> cases hh : pyFloat h <;>
            simp [parseLine, parseAngle, hc, hx, hy, hw, hh, pyFloat]

/-- C6 witness: the two general conjuncts applied at concrete lines. -/
theorem C6_witness :
    parseLine [Tok.int 0, Tok.float (1/2)] = none ∧
    parseLine [Tok.int 0, Tok.junk, Tok.float (1/2), Tok.float (1/4), Tok.float (1/4)]
      = none :=
  ⟨C6_malformed_lines_skipped.1 _ (by decide),
   C6_malformed_lines_skipped.2.1 _ (by decide)⟩

/-! ## C1 — the clamped-range invariant -/

theorem press_labels_unchanged (trig : ℚ → ℚ × ℚ) (s : ToolState) (p : ℚ × ℚ) :
    ∀ s1, handle_mouse_press trig s p = some s1 → s1.labels = s.labels := by
  intro s1 h
  unfold handle_mouse_press at h
  split_ifs at h with h1 h2 h3
  · injection h with h; subst h; rfl
  · rcases hget : s.labels.get? s.selected_label.toNat with _ | label <;> rw [hget] at h
    · simp at h
    · simp only [] at h
      rcases hhit : editHandleHit (trig label.angle).1 (trig label.angle).2
          s.image_width s.image_height label p with _ | i <;> rw [hhit] at h
      · split_ifs at h with hcon
        · injection h with h; subst h; rfl
        · rcases hfc : findContaining s p with _ | j <;> rw [hfc] at h <;>
            injection h with h <;> subst h <;> rfl
      · injection h with h; subst h; rfl
  · injection h with h; subst h; rfl
  · injection h with h; subst h; rfl

theorem move_preserves_invariant (trig : ℚ → ℚ × ℚ) (atan2d : ℚ → ℚ → ℚ)
    (s : ToolState) (p : ℚ × ℚ) (hinv : docInvariant s.labels) :
    ∀ s2, handle_mouse_move trig atan2d s p = some s2 → docInvariant s2.labels := by
  intro s2 h
  unfold handle_mouse_move at h
  split_ifs at h with h1 h2 h3 h4 h4b h5
  · injection h with h; subst h; exact hinv
  · rcases hget : s.labels.get? s.selected_label.toNat with _ | label <;> rw [hget] at h
    · simp at h
    · simp only [] at h
      injection h with h; subst h
      obtain ⟨_, _, _, _, hw1, hw2, hh1, hh2⟩ := labelInRange_of_get? hinv hget
      have h01 : (0 : ℚ) ≤ 1 := by norm_num
      exact docInvariant_set hinv
        ⟨(clamp_mem _ _ _ h01).1, (clamp_mem _ _ _ h01).2,
         (clamp_mem _ _ _ h01).1, (clamp_mem _ _ _ h01).2, hw1, hw2, hh1, hh2⟩
  · rcases hget : s.labels.get? s.selected_label.toNat with _ | label <;> rw [hget] at h <;>
      simp at h
  · rcases hget : s.labels.get? s.selected_label.toNat with _ | label <;> rw [hget] at h
    · simp at h
    · simp only [] at h
      injection h with h; subst h
      exact docInvariant_set hinv (labelInRange_clamped _ _ _ _ _ _)
  · rcases hget : s.labels.get? s.selected_label.toNat with _ | label <;> rw [hget] at h
    · simp at h
    · simp only [] at h
      injection h with h; subst h
      exact docInvariant_set hinv (labelInRange_clamped _ _ _ _ _ _)
  · rcases hget : s.labels.get? s.selected_label.toNat with _ | label <;> rw [hget] at h
    · simp at h
    · simp only [] at h
      injection h with h; subst h
      have hl := labelInRange_of_get? hinv hget
      exact docInvariant_set hinv hl
  · injection h with h; subst h; exact hinv

theorem release_preserves_invariant (s : ToolState) (p : ℚ × ℚ)
    (hinv : docInvariant s.labels) :
    docInvariant (handle_mouse_release s p).labels := by
  unfold handle_mouse_release
  split
  · split
    · exact docInvariant_append_one hinv (labelInRange_clamped _ _ _ _ _ _)
    · exact hinv
  · exact hinv

theorem update_label_preserves_invariant (s : ToolState) (xv yv wv hv : ℚ)
    (hinv : docInvariant s.labels) :
    docInvariant (update_label s xv yv wv hv).labels := by
  unfold update_label
  split_ifs with hsel
  · rcases s.labels.get? s.selected_label.toNat with _ | label
    · exact hinv
    · exact docInvariant_set hinv (labelInRange_clamped _ _ _ _ _ _)
  · exact hinv

/-- C1 (amended): every *interactive* mutation path keeps the document
invariant — the pointer handlers (press never touches labels; drag, resize
and rotate clamp or preserve the touched fields; the draw commit appends a
fully clamped label) and the manual `update_label` edit all clamp
`x_center, y_center` into `[0,1]` and `width, height` into `[0.001,1]`.
`load_yolo_labels`, however, stores parsed values unclamped (see the
counterexample), so the claim's inclusion of loaded labels fails. -/
theorem C1_interactive_mutations_keep_invariant (trig : ℚ → ℚ × ℚ)
    (atan2d : ℚ → ℚ → ℚ) (s : ToolState) (p : ℚ × ℚ) (xv yv wv hv : ℚ)
    (hinv : docInvariant s.labels) :
    (∀ s1, handle_mouse_press trig s p = some s1 → docInvariant s1.labels) ∧
    (∀ s2, handle_mouse_move trig atan2d s p = some s2 → docInvariant s2.labels) ∧
    docInvariant (handle_mouse_release s p).labels ∧
    docInvariant (update_label s xv yv wv hv).labels :=
  ⟨fun s1 h1 => (press_labels_unchanged trig s p s1 h1).symm ▸ hinv,
   move_preserves_invariant trig atan2d s p hinv,
   release_preserves_invariant s p hinv,
   update_label_preserves_invariant s xv yv wv hv hinv⟩

/-- C1 counterexample: `load_yolo_labels` performs no clamping, so a label
file line with `x_center = 2` produces a stored label violating the claimed
invariant. -/
theorem C1_counterexample_load_unclamped :
    load_yolo_labels [] true (.readable [[Tok.int 0, Tok.float 2, Tok.float (1/2),
      Tok.float (1/2), Tok.float (1/2)]]) = [⟨0, 2, 1/2, 1/2, 1/2, 0⟩] ∧
    ¬ docInvariant [⟨0, 2, 1/2, 1/2, 1/2, 0⟩] := by
  with_unfolding_all decide

/-- C1 witness: the preservation theorem applied at a concrete state. -/
theorem C1_witness :
    docInvariant (handle_mouse_release (initState 200 100) (0, 0)).labels :=
  (C1_interactive_mutations_keep_invariant (fun _ => ((1 : ℚ), (0 : ℚ)))
    (fun _ _ => 0) (initState 200 100) (0, 0) 0 0 0 0
    (by with_unfolding_all decide)).2.2.1

/-! ## C2 — edge-handle resize -/

/-- C2 (code bug): pressing the selected label's top-edge handle (index 4)
and moving outward does not scale `height` up — `handle_mouse_move` raises
IndexError first: `modified_corners` holds only the 4 corners, so the list
assignment at index 4 is out of range and the whole edge-resize branch
(lines 484–492) is dead code.  The run below presses exactly on the top-edge
midpoint handle (50,40) of the selected label and moves 10 px outward to
(50,30): the press starts a resize with handle index 4, the move raises.
Moreover, even the dead formula has the wrong sign for the top edge: at the
same input it yields `0.2 · (1 + (−2)) = −0.2`, clamped to the `0.001`
floor — a collapse, not an enlargement. -/
theorem C2_edge_resize_raises_indexerror :
    runEvents (fun _ => ((1 : ℚ), (0 : ℚ))) (fun _ _ => 0) editStateC2
      [.press (50, 40), .move (50, 30)] = none ∧
    clamp (1/1000) 1 (edge_resize_dead_code 100 100 ⟨0, 1/2, 1/2, 2/5, 1/5, 0⟩ 4 (50, 30))
      = 1/1000 := by
  with_unfolding_all decide

/-! ## C7 — the draw scenario -/

/-- C7: from the initial state on a 200×100 image with an empty document,
`PointerDown(10,10)`, `PointerMove(110,60)`, `PointerUp(110,60)` appends
exactly one label with `x_center = 0.3`, `y_center = 0.35`,
`width = height = 0.5` and `angle = 0`.  The drawing path never consults the
trigonometric oracles, so the result holds for every `trig` and `atan2d`. -/
theorem C7_draw_scenario (trig : ℚ → ℚ × ℚ) (atan2d : ℚ → ℚ → ℚ) :
    (runEvents trig atan2d (initState 200 100)
      [.press (10, 10), .move (110, 60), .up (110, 60)]).map ToolState.labels
    = some [⟨0, 3/10, 7/20, 1/2, 1/2, 0⟩] := by
  with_unfolding_all rfl

/-! ## C9 — class removal never renumbers labels -/

/-- C9: whenever `remove_class` returns (for any state, row and confirmation
— in particular at every valid index), the label list, and with it every
label's `class_id`, is exactly the one before the call; and concretely,
removing class index 0 from a two-class table leaves the two labels'
class ids `[0, 1]` untouched. -/
theorem C9_remove_class_no_renumber :
    (∀ (s : ToolState) (row : ℤ) (conf : Bool) (t : ToolState),
      remove_class s row conf = some t → t.labels = s.labels) ∧
    (remove_class twoClassState 0 true).map (fun t => t.labels.map Label.class_id)
      = some [0, 1] := by
  constructor
  · intro s row conf t h
    unfold remove_class at h
    split_ifs at h <;> injection h with h <;> subst h <;> rfl
  · with_unfolding_all decide

/-- C9 witness: the general conjunct applied at the concrete two-class
state. -/
theorem C9_witness :
    ({ twoClassState with classes := ["car"] } : ToolState).labels
      = twoClassState.labels :=
  C9_remove_class_no_renumber.1 twoClassState 0 true
    { twoClassState with classes := ["car"] } (by with_unfolding_all decide)

/-! ## C10 — a zero-area click still commits a label -/

/-- C10 counterexample: the committed center is the *clamped* normalized
pointer position, not the normalized position itself.  A click at
`p = (400, 50)` on a 200×100 image stores `x_center = 1`, while `p`
normalized is `400/200 = 2` — so the claim's description of the center fails
for points outside the image. -/
theorem C10_counterexample_center_clamped :
    (runEvents (fun _ => ((1 : ℚ), (0 : ℚ))) (fun _ _ => 0) (initState 200 100)
      [.press (400, 50), .up (400, 50)]).map ToolState.labels
    = some [⟨0, 1, 1/2, 1/1000, 1/1000, 0⟩] ∧
    ((400 : ℚ) / 200) ≠ 1 := by
  with_unfolding_all decide

/-- C10 (amended): in Draw mode a `PointerDown(p)` immediately followed by
`PointerUp(p)` always commits exactly one new label: its center is `p`
normalized by the image dimensions *and clamped to `[0,1]`* (equal to the
normalized `p` whenever `p` lies inside the image), and its zero width and
height are clamped up to the `0.001` floor — a zero-area click yields a
minimal `0.001 × 0.001` label instead of being ignored. -/
theorem C10_click_commits_minimal_label (trig : ℚ → ℚ × ℚ) (atan2d : ℚ → ℚ → ℚ)
    (s : ToolState) (p : ℚ × ℚ) (hmode : s.drawing_mode = true) :
    (runEvents trig atan2d s [.press p, .up p]).map ToolState.labels
    = some (s.labels ++ [⟨if s.class_combo < 0 then 0 else s.class_combo,
        clamp 0 1 (p.1 / s.image_width), clamp 0 1 (p.2 / s.image_height),
        1/1000, 1/1000, (s.angle_slider : ℚ)⟩]) := by
  simp only [runEvents, List.foldlM, step, handle_mouse_press, hmode, if_true,
    Option.bind_eq_bind, Option.some_bind, handle_mouse_release]
  simp only [Bool.and_self, if_true, Option.some_bind]
  have hx : (p.1 + 0 / 2) / s.image_width = p.1 / s.image_width := by norm_num
  have hy : (p.2 + 0 / 2) / s.image_height = p.2 / s.image_height := by norm_num
  have hw : clamp (1/1000) 1 (0 / s.image_width) = 1/1000 := by
    rw [zero_div]; unfold clamp
    rw [min_eq_right (by norm_num : (0:ℚ) ≤ 1), max_eq_left (by norm_num : (0:ℚ) ≤ 1/1000)]
  have hh : clamp (1/1000) 1 (0 / s.image_height) = 1/1000 := by
    rw [zero_div]; unfold clamp
    rw [min_eq_right (by norm_num : (0:ℚ) ≤ 1), max_eq_left (by norm_num : (0:ℚ) ≤ 1/1000)]
  have hz : clamp (1/1000) 1 (0 : ℚ) = 1/1000 := by
    unfold clamp
    rw [min_eq_right (by norm_num : (0:ℚ) ≤ 1), max_eq_left (by norm_num : (0:ℚ) ≤ 1/1000)]
  have hz2 : clamp ((1000 : ℚ)⁻¹) 1 0 = (1000 : ℚ)⁻¹ := by
    unfold clamp
    rw [min_eq_right (by norm_num : (0:ℚ) ≤ 1),
      max_eq_left (by norm_num : (0:ℚ) ≤ (1000:ℚ)⁻¹)]
  simp [hx, hy, hw, hh, hz, hz2]

/-- C10 witness: the amended theorem at the initial state and an in-image
click, where the clamps are the identity on the normalized center. -/
theorem C10_witness :
    (runEvents (fun _ => ((1 : ℚ), (0 : ℚ))) (fun _ _ => 0) (initState 200 100)
      [.press (30, 40), .up (30, 40)]).map ToolState.labels
    = some ((initState 200 100).labels ++
        [⟨if (initState 200 100).class_combo < 0 then 0
            else (initState 200 100).class_combo,
          clamp 0 1 (30 / (initState 200 100).image_width),
          clamp 0 1 (40 / (initState 200 100).image_height),
          1/1000, 1/1000, ((initState 200 100).angle_slider : ℚ)⟩]) :=
  C10_click_commits_minimal_label (fun _ => ((1 : ℚ), (0 : ℚ))) (fun _ _ => 0)
    (initState 200 100) (30, 40) rfl

/-! ## C4 — the edit-mode handle hit-test -/

/-- C4 counterexample: at the point `(28,28)`, 8 px in both coordinates from
the top-left corner handle `(20,20)` of the selected label, the code's
hit-test succeeds (returning index 0) although no handle and not the center
lies within Euclidean distance 10 of the point (the nearest squared distance
is `128 ≥ 100`): the test is the axis-aligned box `|Δx| < 10 ∧ |Δy| < 10`,
not a Euclidean disc, and the center is never tested. -/
theorem C4_counterexample_not_euclidean :
    editHandleHit 1 0 200 200 ⟨0, 1/2, 1/2, 4/5, 4/5, 0⟩ (28, 28) = some 0 ∧
    spec_euclidean_hit 1 0 200 200 ⟨0, 1/2, 1/2, 4/5, 4/5, 0⟩ (28, 28) = false := by
  with_unfolding_all decide

/-- C4 (amended): the edit-mode handle hit-test at `PointerDown` succeeds
exactly when some of the eight handles (corners 0–3 then edge midpoints 4–7;
the center is not tested) satisfies the axis-aligned box test
`|Δx| < 10 ∧ |Δy| < 10`, and it returns the first such index in enumeration
order: the returned index satisfies the box test and every smaller index
fails it. -/
theorem C4_handle_hit_box_test (cos_a sin_a W H : ℚ) (label : Label) (p : ℚ × ℚ) :
    ((editHandleHit cos_a sin_a W H label p).isSome ↔
      ∃ q ∈ calculate_handles cos_a sin_a W H label,
        |p.1 - q.1| < 10 ∧ |p.2 - q.2| < 10) ∧
    (∀ i, editHandleHit cos_a sin_a W H label p = some i →
      ∃ q, (calculate_handles cos_a sin_a W H label).get? i = some q ∧
        (|p.1 - q.1| < 10 ∧ |p.2 - q.2| < 10) ∧
        ∀ j, j < i → ∀ r, (calculate_handles cos_a sin_a W H label).get? j = some r →
          ¬(|p.1 - r.1| < 10 ∧ |p.2 - r.2| < 10)) := by
  constructor
  · unfold editHandleHit
    rw [show ((calculate_handles cos_a sin_a W H label).findIdx?
        (fun q => decide (|p.1 - q.1| < 10) && decide (|p.2 - q.2| < 10))).isSome
      = (calculate_handles cos_a sin_a W H label).any
        (fun q => decide (|p.1 - q.1| < 10) && decide (|p.2 - q.2| < 10))
      from List.findIdx?_isSome]
    simp [List.any_eq_true]
  · intro i hi
    unfold editHandleHit at hi
    rw [List.findIdx?_eq_some_iff_getElem] at hi
    obtain ⟨hlen, hp, hmin⟩ := hi
    refine ⟨(calculate_handles cos_a sin_a W H label).get ⟨i, hlen⟩, ?_, ?_, ?_⟩
    · exact List.get?_eq_get hlen
    · simpa using hp
    · intro j hj r hr
      have hjlen : j < (calculate_handles cos_a sin_a W H label).length :=
        Nat.lt_trans hj hlen
      rw [List.get?_eq_get hjlen] at hr
      injection hr with hr
      subst hr
      have hn := hmin j hj
      simp only [Bool.and_eq_true, decide_eq_true_eq] at hn
      exact hn

/-- C4 witness: the characterization applied at the counterexample point,
where the box test does succeed. -/
theorem C4_witness :
    (editHandleHit 1 0 200 200 ⟨0, 1/2, 1/2, 4/5, 4/5, 0⟩ (28, 28)).isSome :=
  (C4_handle_hit_box_test 1 0 200 200 ⟨0, 1/2, 1/2, 4/5, 4/5, 0⟩ (28, 28)).1.mpr
    (by with_unfolding_all decide)

/-! ## C8 — the rotated-corner centroid -/

theorem centroid_corners_eq (cx cy w h c s : ℝ) :
    centroid (calculate_rotated_corners cx cy w h c s) = (cx, cy) := by
  simp only [calculate_rotated_corners, centroid, List.map_cons, List.map_nil,
    List.sum_cons, List.sum_nil, List.length_cons, List.length_nil]
  norm_num
  constructor <;> ring

/-- C8: for every center, width, height and angle in degrees, the four
points computed by `calculate_rotated_corners` (with the cosine and sine of
the angle converted to radians, as the callers compute them) have centroid
exactly equal to the given center — in the real-number model the equality is
exact, hence within any floating-point tolerance. -/
theorem C8_corners_centroid (cx cy w h angle_degrees : ℝ) :
    centroid (calculate_rotated_corners cx cy w h
      (Real.cos (angle_degrees * Real.pi / 180))
      (Real.sin (angle_degrees * Real.pi / 180))) = (cx, cy) :=
  centroid_corners_eq cx cy w h _ _

end VisionAnnotate
